import Mathlib

/-!
# Verification of the `lol-api-proxy` handlers

Shallow embedding of the two request handlers of the repository:

* `src/api/summoner/[...params].js` — the Identity Flow (`summonerHandler` below)
* `src/api/rank/[puuid].js` — the Rank Flow (`rankHandler` below)

Modelling conventions:

* JSON values are the inductive `JVal`.  JavaScript `NaN` appearing as an
  object value is modelled by the `Option` layer of the field that produces
  it (`ProcessedRank.winRate`); `JSON.stringify` turns `NaN` into `null`,
  which serialization reflects.  Object fields holding `undefined` are
  omitted by serialization, as `JSON.stringify` does.
* JavaScript numbers are modelled by exact rationals (`ℚ`).  This is the
  real-number idealization of IEEE doubles; every concrete input evaluated
  in this file is exactly representable, so the idealization is invisible
  at those points.
* Each upstream `fetch` is modelled by a `FetchResult` supplied as an input
  of the handler: either the fetch throws (`.fail msg`, a network error) or
  an HTTP response arrives with a status, an optional parsed JSON body
  (`none` when `.json()` would throw) and a raw text body.
* Exceptions are modelled with `Except`: the `…Core` functions return
  `.error (message, trace)` where the JavaScript code throws, and the
  handler wrappers implement the surrounding `try { … } catch` which maps
  any thrown error to the 500 "Internal server error" envelope.
* Each handler also returns the list of upstream calls it issued
  (`List UpCall`), in order, so that temporal claims ("the rank call is
  never issued") are statable.
-/

/-- A JSON value, as produced by `res.json(...)` after `JSON.stringify`. -/
inductive JVal where
  | null
  | bool (b : Bool)
  | num (q : ℚ)
  | str (s : String)
  | arr (xs : List JVal)
  | obj (fields : List (String × JVal))

/-- Field lookup in a JSON object (`none` on non-objects or absent keys). -/
def JVal.get (v : JVal) (k : String) : Option JVal :=
  match v with
  | .obj fs => fs.lookup k
  | _ => none

/-- An HTTP reply emitted by a handler: `res.status(status).json(body)`. -/
structure HttpReply where
  status : Nat
  body : JVal

/-- One upstream HTTP GET, identified by resolved host and path parameters. -/
inductive UpCall where
  | account (host gameName tagLine : String)
  | summoner (host puuid : String)
  | league (host summonerId : String)
  deriving DecidableEq, Repr

/-- Result of one `fetch`: either the promise rejects (network failure), or
an HTTP response with `status`, the parsed JSON body (`none` when `.json()`
would throw) and the raw text body (used by `.text()`). -/
inductive FetchResult (α : Type) where
  | fail (msg : String)
  | resp (status : Nat) (body : Option α) (text : String)

/-- `Response.ok`: status in the inclusive range 200–299. -/
def httpOk (status : Nat) : Bool := 200 ≤ status && status ≤ 299

/-- JavaScript truthiness filter for string-or-undefined values: `none` when
the value is falsy (`undefined` or the empty string), used to model
`if (!x)` guards and `x || default`. -/
def jsTruthy (v : Option String) : Option String :=
  match v with
  | some s => if s = "" then none else some s
  | none => none

/-- `x || default` on a string-or-undefined value. -/
def jsOr (v : Option String) (d : String) : String :=
  (jsTruthy v).getD d

/-! ## Rank Aggregation Stage (`src/api/rank/[puuid].js`) -/

/-- A raw rank entry as parsed from the league-entries response body.
Fields the upstream may omit are `Option`. -/
structure RankEntryRaw where
  queueType : String
  tier : Option String
  rank : Option String
  leaguePoints : ℚ
  wins : Nat
  losses : Nat
  veteran : Option Bool
  inactive : Option Bool
  freshBlood : Option Bool
  hotStreak : Option Bool
  leagueName : Option String
  miniSeries : Option JVal

/-- One element of `processedRanks`.  `winRate = none` models the JavaScript
`NaN` produced by `0/0` (which `Math.round` and `/ 100` propagate). -/
structure ProcessedRank where
  queueType : String
  tier : Option String
  rank : Option String
  leaguePoints : ℚ
  wins : Nat
  losses : Nat
  winRate : Option ℚ
  veteran : Bool
  inactive : Bool
  freshBlood : Bool
  hotStreak : Bool
  leagueName : Option String
  miniSeries : Option JVal

/-- `Math.round`: round half toward positive infinity. -/
def jsRound (x : ℚ) : ℤ := ⌊x + 1/2⌋

/-- `Math.round((entry.wins / (entry.wins + entry.losses)) * 100 * 100) / 100`.
When `wins + losses = 0` the JavaScript expression is `NaN` (0/0), which
propagates through `Math.round` and the final division; `none` models that. -/
def winRateOf (wins losses : Nat) : Option ℚ :=
  if wins + losses = 0 then none
  else some ((jsRound ((wins : ℚ) / ((wins : ℚ) + (losses : ℚ)) * 100 * 100) : ℚ) / 100)

/-- `entry.leagueName || null`: the empty string is falsy, so it becomes null. -/
def jsOrNull (v : Option String) : Option String := jsTruthy v

/-- The per-entry mapping inside `rankData.map(entry => ({...}))`. -/
def processRank (entry : RankEntryRaw) : ProcessedRank :=
  { queueType := entry.queueType
    tier := entry.tier
    rank := entry.rank
    leaguePoints := entry.leaguePoints
    wins := entry.wins
    losses := entry.losses
    winRate := winRateOf entry.wins entry.losses
    veteran := entry.veteran.getD false
    inactive := entry.inactive.getD false
    freshBlood := entry.freshBlood.getD false
    hotStreak := entry.hotStreak.getD false
    leagueName := jsOrNull entry.leagueName
    miniSeries := entry.miniSeries }

/-- The tier ordinal table of `getTierValue`. -/
def tierValues : List (String × Nat) :=
  [("IRON", 1), ("BRONZE", 2), ("SILVER", 3), ("GOLD", 4), ("PLATINUM", 5),
   ("EMERALD", 6), ("DIAMOND", 7), ("MASTER", 8), ("GRANDMASTER", 9), ("CHALLENGER", 10)]

/-- `getTierValue(tier)`: `tierValues[tier] || 0`; an absent (`undefined`)
tier also indexes to `undefined`, hence 0. -/
def getTierValue (tier : Option String) : Nat :=
  match tier with
  | none => 0
  | some t => (tierValues.lookup t).getD 0

/-- `processedRanks.reduce((highest, current) =>
getTierValue(current.tier) > getTierValue(highest.tier) ? current : highest)`:
a left fold whose accumulator starts at the first element. -/
def reduceHighest (acc : ProcessedRank) (rest : List ProcessedRank) : ProcessedRank :=
  match rest with
  | [] => acc
  | c :: t => reduceHighest (if getTierValue c.tier > getTierValue acc.tier then c else acc) t

/-- The `summary` object of the Rank Flow response. -/
structure RankSummary where
  totalRankedQueues : Nat
  highestTier : Option String
  deriving DecidableEq, Repr

/-- `summary: { totalRankedQueues: processedRanks.length, highestTier:
processedRanks.length > 0 ? processedRanks.reduce(...).tier : null }`. -/
def summaryOf (processedRanks : List ProcessedRank) : RankSummary :=
  { totalRankedQueues := processedRanks.length
    highestTier :=
      match processedRanks with
      | [] => none
      | h :: t => (reduceHighest h t).tier }

/-! ## Percent-decoding (`decodeURIComponent`) -/

/-- Value of one hexadecimal digit, `none` for non-hex characters. -/
def hexVal (c : Char) : Option Nat :=
  if '0' ≤ c ∧ c ≤ '9' then some (c.toNat - '0'.toNat)
  else if 'a' ≤ c ∧ c ≤ 'f' then some (c.toNat - 'a'.toNat + 10)
  else if 'A' ≤ c ∧ c ≤ 'F' then some (c.toNat - 'A'.toNat + 10)
  else none

/-- Character-list worker for `decodeURIComponentM`. -/
def percentDecodeChars : List Char → Option (List Char)
  | [] => some []
  | '%' :: rest =>
    match rest with
    | h1 :: h2 :: rest2 =>
      match hexVal h1, hexVal h2 with
      | some a, some b => (percentDecodeChars rest2).map (fun l => Char.ofNat (16 * a + b) :: l)
      | _, _ => none
    | _ => none
  | c :: rest => (percentDecodeChars rest).map (fun l => c :: l)

/-- `decodeURIComponent`, modelled at the byte level: the result is `none`
(the JavaScript call throws `URIError`) exactly when a `%` is not followed
by two hexadecimal digits.  Percent-escaped bytes are mapped to code points
directly rather than re-assembled as multi-byte UTF-8 sequences; the claims
settled here depend only on the malformed-escape failure mode. -/
def decodeURIComponentM (s : String) : Option String :=
  (percentDecodeChars s.data).map List.asString

/-! ## Identity Flow (`src/api/summoner/[...params].js`) -/

/-- Parsed body of the account-v1 by-riot-id response. -/
structure AccountData where
  puuid : String
  gameName : String
  tagLine : String

/-- Parsed body of the summoner-v4 by-puuid response. -/
structure SummonerData where
  id : String
  accountId : String
  summonerLevel : Nat
  profileIconId : Nat
  revisionDate : Nat

/-- The Identity Flow request: the `params` catch-all path segments and the
`region` / `server` query parameters (absent when not supplied). -/
structure IdReq where
  method : String
  params : Option (List String)
  region : Option String
  server : Option String

/-- The `regionEndpoints` table, in insertion order (`Object.keys` order). -/
def regionEndpoints : List (String × String) :=
  [("americas", "americas.api.riotgames.com"),
   ("asia", "asia.api.riotgames.com"),
   ("europe", "europe.api.riotgames.com"),
   ("sea", "sea.api.riotgames.com")]

/-- The `serverEndpoints` table (identical in both handlers), in insertion
order (`Object.keys` order). -/
def serverEndpoints : List (String × String) :=
  [("kr", "kr.api.riotgames.com"),
   ("jp1", "jp1.api.riotgames.com"),
   ("na1", "na1.api.riotgames.com"),
   ("br1", "br1.api.riotgames.com"),
   ("lan", "lan.api.riotgames.com"),
   ("las", "las.api.riotgames.com"),
   ("oc1", "oc1.api.riotgames.com"),
   ("euw1", "euw1.api.riotgames.com"),
   ("eun1", "eun1.api.riotgames.com"),
   ("tr1", "tr1.api.riotgames.com"),
   ("ru", "ru.api.riotgames.com")]

/-- 405 body shared by both handlers. -/
def methodNotAllowedBody : JVal :=
  .obj [("success", .bool false), ("error", .str "Method not allowed")]

/-- 400 body for a malformed `/api/summoner/...` path. -/
def invalidFormatBody : JVal :=
  .obj [("success", .bool false),
        ("error", .str "Invalid URL format. Expected: /api/summoner/\x7bgameName\x7d/\x7btagLine\x7d"),
        ("example", .str "/api/summoner/Hide%20on%20bush/KR1")]

/-- 500 body when `RIOT_API_KEY` is absent (Identity Flow). -/
def configErrorBody : JVal :=
  .obj [("success", .bool false), ("error", .str "Server configuration error"),
        ("message", .str "API key not found")]

/-- 400 body for an unrecognized region, listing the valid keys. -/
def invalidRegionBody : JVal :=
  .obj [("success", .bool false), ("error", .str "Invalid region"),
        ("validRegions", .arr (regionEndpoints.map (fun p => .str p.1)))]

/-- 404 body when the account lookup returns 404. -/
def notFoundBody (gameName tagLine : String) : JVal :=
  .obj [("success", .bool false), ("error", .str "Summoner not found"),
        ("message", .str ("No summoner found with Riot ID: " ++ gameName ++ "#" ++ tagLine)),
        ("suggestions", .arr
          [.str "Check the spelling of the game name",
           .str "Verify the tag line (e.g., KR1, NA1, EUW1)",
           .str "Make sure the account exists in the specified region"])]

/-- 403 body when the account lookup returns 403. -/
def authFailedBody : JVal :=
  .obj [("success", .bool false), ("error", .str "API authentication failed"),
        ("message", .str "Invalid or expired API key")]

/-- Passthrough body for any other non-2xx account response. -/
def riotErrorBody (status : Nat) (text : String) : JVal :=
  .obj [("success", .bool false), ("error", .str "Riot API error"),
        ("status", .num status), ("details", .str text)]

/-- The generic catch-all 500 body shared by both handlers. -/
def internalErrorBody (msg : String) : JVal :=
  .obj [("success", .bool false), ("error", .str "Internal server error"),
        ("message", .str msg)]

/-- The 200 body of the Identity Flow: identity fields always, summoner
fields only when the optional enrichment succeeded (`...(summonerData && ...)`). -/
def identitySuccessBody (acc : AccountData) (sm : Option SummonerData)
    (region server now : String) : JVal :=
  .obj [("success", .bool true),
        ("data", .obj ([("puuid", .str acc.puuid), ("gameName", .str acc.gameName),
                        ("tagLine", .str acc.tagLine)] ++
          (match sm with
           | some s => [("summonerId", .str s.id), ("accountId", .str s.accountId),
                        ("summonerLevel", .num s.summonerLevel),
                        ("profileIconId", .num s.profileIconId),
                        ("revisionDate", .num s.revisionDate)]
           | none => []))),
        ("metadata", .obj [("region", .str region), ("server", .str server),
                           ("timestamp", .str now)])]

/-- The body of the `try` block of the Identity Flow handler.  `.error`
models a thrown exception (caught by the wrapper); the second component is
the trace of upstream calls issued so far. -/
def summonerCore (req : IdReq) (apiKey : Option String)
    (accountResp : FetchResult AccountData) (summonerResp : FetchResult SummonerData)
    (now : String) : Except (String × List UpCall) (HttpReply × List UpCall) :=
  match req.params with
  | some (rawGameName :: rawTagLine :: _) =>
    match decodeURIComponentM rawGameName with
    | none => .error ("URI malformed", [])
    | some gameName =>
      match decodeURIComponentM rawTagLine with
      | none => .error ("URI malformed", [])
      | some tagLine =>
        match jsTruthy apiKey with
        | none => .ok (⟨500, configErrorBody⟩, [])
        | some _ =>
          let region := jsOr req.region "asia"
          match regionEndpoints.lookup region with
          | none => .ok (⟨400, invalidRegionBody⟩, [])
          | some endpoint =>
            let tr1 := [UpCall.account endpoint gameName tagLine]
            match accountResp with
            | .fail msg => .error (msg, tr1)
            | .resp status body text =>
              if ¬ httpOk status then
                if status = 404 then .ok (⟨404, notFoundBody gameName tagLine⟩, tr1)
                else if status = 403 then .ok (⟨403, authFailedBody⟩, tr1)
                else .ok (⟨status, riotErrorBody status text⟩, tr1)
              else
                match body with
                | none => .error ("Unexpected token in JSON", tr1)
                | some accountData =>
                  let server := jsOr req.server "kr"
                  match serverEndpoints.lookup server with
                  | none =>
                    .ok (⟨200, identitySuccessBody accountData none region server now⟩, tr1)
                  | some serverEndpoint =>
                    let tr2 := tr1 ++ [UpCall.summoner serverEndpoint accountData.puuid]
                    match summonerResp with
                    | .fail msg => .error (msg, tr2)
                    | .resp status2 body2 _ =>
                      if httpOk status2 then
                        match body2 with
                        | none => .error ("Unexpected token in JSON", tr2)
                        | some summonerData =>
                          .ok (⟨200, identitySuccessBody accountData (some summonerData)
                                  region server now⟩, tr2)
                      else
                        .ok (⟨200, identitySuccessBody accountData none region server now⟩, tr2)
  | _ => .ok (⟨400, invalidFormatBody⟩, [])

/-- The full Identity Flow handler: CORS preflight, method gating, and the
`try`/`catch` wrapper around `summonerCore` (`res.status(200).end()` of the
preflight sends no body, modelled as `.null`). -/
def summonerHandler (req : IdReq) (apiKey : Option String)
    (accountResp : FetchResult AccountData) (summonerResp : FetchResult SummonerData)
    (now : String) : HttpReply × List UpCall :=
  if req.method = "OPTIONS" then (⟨200, .null⟩, [])
  else if req.method ≠ "GET" then (⟨405, methodNotAllowedBody⟩, [])
  else
    match summonerCore req apiKey accountResp summonerResp now with
    | .ok r => r
    | .error (msg, tr) => (⟨500, internalErrorBody msg⟩, tr)

/-! ## Rank Flow (`src/api/rank/[puuid].js`) -/

/-- The Rank Flow request: the `puuid` route parameter and the `server`
query parameter. -/
structure RankReq where
  method : String
  puuid : Option String
  server : Option String

/-- 400 body when `puuid` is falsy. -/
def puuidRequiredBody : JVal :=
  .obj [("success", .bool false), ("error", .str "PUUID is required"),
        ("example", .str "/api/rank/\x7bpuuid\x7d?server=kr")]

/-- 500 body when `RIOT_API_KEY` is absent (Rank Flow). -/
def apiKeyMissingBody : JVal :=
  .obj [("success", .bool false), ("error", .str "API key not configured")]

/-- 400 body for an unrecognized server, listing the valid keys. -/
def invalidServerBody : JVal :=
  .obj [("success", .bool false), ("error", .str "Invalid server"),
        ("validServers", .arr (serverEndpoints.map (fun p => .str p.1)))]

/-- 404 body when the by-puuid summoner lookup returns 404 (Rank Flow). -/
def summonerNotFoundBody (server : String) : JVal :=
  .obj [("success", .bool false), ("error", .str "Summoner not found on this server"),
        ("message", .str ("No summoner found with PUUID on " ++ server ++ " server"))]

/-- Passthrough body for any other non-2xx summoner response (Rank Flow). -/
def failedSummonerBody (status : Nat) : JVal :=
  .obj [("success", .bool false), ("error", .str "Failed to get summoner info"),
        ("status", .num status)]

/-- Passthrough body for any non-2xx league-entries response. -/
def failedRankBody (status : Nat) : JVal :=
  .obj [("success", .bool false), ("error", .str "Failed to get rank info"),
        ("status", .num status)]

/-- A list of key/value pairs holding `[(k, f v)]` when the option is set
and nothing otherwise: `JSON.stringify` omits `undefined`-valued fields. -/
def optField (k : String) (v : Option JVal) : List (String × JVal) :=
  match v with
  | some j => [(k, j)]
  | none => []

/-- Serialization of one processed rank entry.  `tier`/`rank` are omitted
when `undefined` (as `JSON.stringify` does); `winRate = none` is the `NaN`
case, which `JSON.stringify` renders as `null`; `leagueName`/`miniSeries`
were defaulted to `null` by the mapping, so they are always present. -/
def rankJson (r : ProcessedRank) : JVal :=
  .obj ([("queueType", .str r.queueType)]
    ++ optField "tier" (r.tier.map .str)
    ++ optField "rank" (r.rank.map .str)
    ++ [("leaguePoints", .num r.leaguePoints),
        ("wins", .num r.wins), ("losses", .num r.losses),
        ("winRate", match r.winRate with | some q => .num q | none => .null),
        ("veteran", .bool r.veteran), ("inactive", .bool r.inactive),
        ("freshBlood", .bool r.freshBlood), ("hotStreak", .bool r.hotStreak),
        ("leagueName", match r.leagueName with | some s => .str s | none => .null),
        ("miniSeries", match r.miniSeries with | some j => j | none => .null)])

/-- Serialization of the summary.  (`highestTier` of a non-empty list whose
selected entry has an `undefined` tier would be omitted by `JSON.stringify`;
this model renders both that case and the empty-list `null` as `null`.) -/
def summaryJson (s : RankSummary) : JVal :=
  .obj [("totalRankedQueues", .num s.totalRankedQueues),
        ("highestTier", match s.highestTier with | some t => .str t | none => .null)]

/-- The 200 body of the Rank Flow. -/
def rankSuccessBody (puuid : String) (sd : SummonerData)
    (processedRanks : List ProcessedRank) (server now : String) : JVal :=
  .obj [("success", .bool true),
        ("data", .obj [("puuid", .str puuid), ("summonerId", .str sd.id),
                       ("summonerLevel", .num sd.summonerLevel),
                       ("ranks", .arr (processedRanks.map rankJson)),
                       ("summary", summaryJson (summaryOf processedRanks))]),
        ("metadata", .obj [("server", .str server), ("timestamp", .str now)])]

/-- The body of the `try` block of the Rank Flow handler.  `.error` models a
thrown exception (caught by the wrapper); the second component is the trace
of upstream calls issued so far. -/
def rankCore (req : RankReq) (apiKey : Option String)
    (summonerResp : FetchResult SummonerData)
    (rankResp : FetchResult (List RankEntryRaw))
    (now : String) : Except (String × List UpCall) (HttpReply × List UpCall) :=
  match jsTruthy req.puuid with
  | none => .ok (⟨400, puuidRequiredBody⟩, [])
  | some puuid =>
    match jsTruthy apiKey with
    | none => .ok (⟨500, apiKeyMissingBody⟩, [])
    | some _ =>
      let server := jsOr req.server "kr"
      match serverEndpoints.lookup server with
      | none => .ok (⟨400, invalidServerBody⟩, [])
      | some endpoint =>
        let tr1 := [UpCall.summoner endpoint puuid]
        match summonerResp with
        | .fail msg => .error (msg, tr1)
        | .resp status body _ =>
          if ¬ httpOk status then
            if status = 404 then .ok (⟨404, summonerNotFoundBody server⟩, tr1)
            else .ok (⟨status, failedSummonerBody status⟩, tr1)
          else
            match body with
            | none => .error ("Unexpected token in JSON", tr1)
            | some summonerData =>
              let tr2 := tr1 ++ [UpCall.league endpoint summonerData.id]
              match rankResp with
              | .fail msg => .error (msg, tr2)
              | .resp status2 body2 _ =>
                if ¬ httpOk status2 then
                  .ok (⟨status2, failedRankBody status2⟩, tr2)
                else
                  match body2 with
                  | none => .error ("Unexpected token in JSON", tr2)
                  | some rankData =>
                    let processedRanks := rankData.map processRank
                    .ok (⟨200, rankSuccessBody puuid summonerData processedRanks
                            server now⟩, tr2)

/-- The full Rank Flow handler: CORS preflight, method gating, and the
`try`/`catch` wrapper around `rankCore`. -/
def rankHandler (req : RankReq) (apiKey : Option String)
    (summonerResp : FetchResult SummonerData)
    (rankResp : FetchResult (List RankEntryRaw))
    (now : String) : HttpReply × List UpCall :=
  if req.method = "OPTIONS" then (⟨200, .null⟩, [])
  else if req.method ≠ "GET" then (⟨405, methodNotAllowedBody⟩, [])
  else
    match rankCore req apiKey summonerResp rankResp now with
    | .ok r => r
    | .error (msg, tr) => (⟨500, internalErrorBody msg⟩, tr)

/-! ## Facts about the Rank Aggregation Stage -/

/-- The spec's rounding: a value "rounded to 2 decimal places" with
JavaScript `Math.round` semantics. -/
def roundTo2 (x : ℚ) : ℚ := (jsRound (x * 100) : ℚ) / 100

/-- A raw rank entry with the given record, all optional flags absent. -/
def mkRawEntry (tier : Option String) (wins losses : Nat) : RankEntryRaw :=
  { queueType := "RANKED_SOLO_5x5", tier := tier, rank := some "I", leaguePoints := 0,
    wins := wins, losses := losses, veteran := none, inactive := none,
    freshBlood := none, hotStreak := none, leagueName := none, miniSeries := none }

/-- A processed rank entry with the given tier (other fields fixed). -/
def sampleEntry (tier : Option String) : ProcessedRank :=
  processRank (mkRawEntry tier 1 1)

/-- C1 counterexample: for the entry with `wins = 0` and `losses = 0` the
code computes `0/0 = NaN` (modelled `none`, serialized as JSON `null`), so
the reported winRate is not `0`. -/
theorem C1_counterexample :
    (processRank (mkRawEntry (some "GOLD") 0 0)).winRate ≠ some 0 ∧
    (processRank (mkRawEntry (some "GOLD") 0 0)).winRate = none := by
  refine ⟨?_, rfl⟩
  decide

/-- C1 (amended): when `wins + losses ≠ 0`, the derived winRate is
`wins/(wins+losses)` as a percentage rounded to 2 decimal places — in
particular wins=7, losses=3 yields 70 — but when `wins = 0` and
`losses = 0` the computation is `NaN` (serialized as JSON `null`), not `0`:
the code has no division-by-zero guard. -/
theorem C1_winRate :
    (∀ entry : RankEntryRaw, entry.wins + entry.losses ≠ 0 →
      (processRank entry).winRate =
        some (roundTo2 ((entry.wins : ℚ) / ((entry.wins : ℚ) + (entry.losses : ℚ)) * 100))) ∧
    (∀ entry : RankEntryRaw, entry.wins = 7 → entry.losses = 3 →
      (processRank entry).winRate = some 70) ∧
    (∀ entry : RankEntryRaw, entry.wins = 0 → entry.losses = 0 →
      (processRank entry).winRate = none) := by
  refine ⟨?_, ?_, ?_⟩
  · intro entry h
    simp only [processRank, winRateOf, roundTo2, if_neg h]
  · intro entry h7 h3
    simp only [processRank, winRateOf, h7, h3]
    rw [if_neg (by norm_num)]
    have h1 : ((7:ℕ):ℚ) / (((7:ℕ):ℚ) + ((3:ℕ):ℚ)) * 100 * 100 = 7000 := by norm_num
    have h2 : jsRound 7000 = 7000 := by
      rw [jsRound, Int.floor_eq_iff]; norm_num
    rw [h1, h2]
    norm_num
  · intro entry h0 h0l
    simp [processRank, winRateOf, h0, h0l]

/-- C1 witness: the amended theorem applied at the concrete entry with
wins=7, losses=3. -/
theorem C1_winRate_witness :
    (processRank (mkRawEntry (some "GOLD") 7 3)).winRate = some 70 :=
  C1_winRate.2.1 (mkRawEntry (some "GOLD") 7 3) rfl rfl

/-- The `reduce` fold returns an entry of `h :: t` attaining the maximum
tier ordinal; every entry strictly before it in the list has a strictly
smaller ordinal (ties keep the first-encountered entry), and every entry
after it has an ordinal at most as large. -/
theorem reduceHighest_spec (t : List ProcessedRank) (h : ProcessedRank) :
    ∃ pre post, h :: t = pre ++ reduceHighest h t :: post ∧
      getTierValue h.tier ≤ getTierValue (reduceHighest h t).tier ∧
      (∀ x ∈ pre, getTierValue x.tier < getTierValue (reduceHighest h t).tier) ∧
      (∀ x ∈ post, getTierValue x.tier ≤ getTierValue (reduceHighest h t).tier) := by
  induction t generalizing h with
  | nil => exact ⟨[], [], rfl, le_refl _, by simp, by simp⟩
  | cons c rest ih =>
    by_cases hc : getTierValue c.tier > getTierValue h.tier
    · have hred : reduceHighest h (c :: rest) = reduceHighest c rest := by
        simp [reduceHighest, hc]
      obtain ⟨pre, post, hsplit, hhead, hpre, hpost⟩ := ih c
      rw [hred]
      refine ⟨h :: pre, post, ?_, ?_, ?_, hpost⟩
      · rw [List.cons_append, ← hsplit]
      · exact le_of_lt (lt_of_lt_of_le hc hhead)
      · intro x hx
        rcases List.mem_cons.mp hx with hxh | hxp
        · rw [hxh]; exact lt_of_lt_of_le hc hhead
        · exact hpre x hxp
    · push_neg at hc
      have hred : reduceHighest h (c :: rest) = reduceHighest h rest := by
        simp [reduceHighest, not_lt.mpr hc]
      obtain ⟨pre, post, hsplit, hhead, hpre, hpost⟩ := ih h
      rw [hred]
      match pre, hsplit with
      | [], hsplit =>
        obtain ⟨hh, hrest⟩ := List.cons_eq_cons.mp hsplit
        refine ⟨[], c :: post, ?_, hhead, by simp, ?_⟩
        · rw [List.nil_append, ← hh, hrest]
        · intro x hx
          rcases List.mem_cons.mp hx with hxc | hxp
          · rw [hxc, ← hh]; exact hc
          · exact hpost x hxp
      | p :: ps, hsplit =>
        obtain ⟨hp, hrest⟩ := List.cons_eq_cons.mp hsplit
        have hhlt : getTierValue h.tier < getTierValue (reduceHighest h rest).tier := by
          rw [show h.tier = p.tier from by rw [hp]]
          exact hpre p (List.mem_cons_self p ps)
        refine ⟨h :: c :: ps, post, ?_, hhead, ?_, hpost⟩
        · calc h :: c :: rest
              = h :: c :: (ps ++ reduceHighest h rest :: post) := by
                conv_lhs => rw [hrest]
                rfl
            _ = (h :: c :: ps) ++ reduceHighest h rest :: post := by simp
        · intro x hx
          rcases List.mem_cons.mp hx with hxh | hx2
          · rw [hxh]; exact hhlt
          · rcases List.mem_cons.mp hx2 with hxc | hxp
            · rw [hxc]; exact lt_of_le_of_lt hc hhlt
            · exact hpre x (List.mem_cons_of_mem p hxp)

/-- C2: `totalRankedQueues` is the number of entries; `highestTier` is the
tier of the first-encountered entry with the maximum tier ordinal (stable
left-to-right fold); an empty list gives `none` and 0; and the concrete
list with tiers [SILVER, DIAMOND, GOLD] gives DIAMOND. -/
theorem C2_summary :
    (∀ ranks : List ProcessedRank,
      (summaryOf ranks).totalRankedQueues = ranks.length ∧
      (ranks = [] → (summaryOf ranks).highestTier = none) ∧
      (ranks ≠ [] →
        ∃ pre r post, ranks = pre ++ r :: post ∧
          (summaryOf ranks).highestTier = r.tier ∧
          (∀ x ∈ pre, getTierValue x.tier < getTierValue r.tier) ∧
          (∀ x ∈ ranks, getTierValue x.tier ≤ getTierValue r.tier))) ∧
    (summaryOf [sampleEntry (some "SILVER"), sampleEntry (some "DIAMOND"),
                sampleEntry (some "GOLD")]).highestTier = some "DIAMOND" := by
  constructor
  · intro ranks
    refine ⟨rfl, ?_, ?_⟩
    · intro h; rw [h]; rfl
    · intro hne
      match ranks, hne with
      | h :: t, _ =>
        obtain ⟨pre, post, hsplit, hhead, hpre, hpost⟩ := reduceHighest_spec t h
        refine ⟨pre, reduceHighest h t, post, hsplit, rfl, hpre, ?_⟩
        intro x hx
        rw [hsplit] at hx
        rcases List.mem_append.mp hx with hxp | hxr
        · exact le_of_lt (hpre x hxp)
        · rcases List.mem_cons.mp hxr with hxe | hxpost
          · rw [hxe]
          · exact hpost x hxpost
  · rfl

/-- C2 witness: the theorem applied to the empty entry list. -/
theorem C2_summary_witness :
    (summaryOf []).highestTier = none ∧ (summaryOf []).totalRankedQueues = 0 :=
  ⟨(C2_summary.1 []).2.1 rfl, (C2_summary.1 []).1⟩

/-! ## Facts about the Identity Flow -/

/-- A well-formed sample Identity Flow request. -/
def reqSample : IdReq :=
  { method := "GET", params := some ["Hide%20on%20bush", "KR1"],
    region := none, server := none }

/-- A sample account record. -/
def accSample : AccountData :=
  { puuid := "sample-puuid", gameName := "Hide on bush", tagLine := "KR1" }

/-- C3 counterexample: an HTTP 401 from the identity-by-name call is NOT
surfaced as the 'API authentication failed' envelope; it falls through to
the generic 'Riot API error' passthrough (only 403 is special-cased). -/
theorem C3_counterexample :
    ((summonerHandler reqSample (some "key") (.resp 401 none "Unauthorized")
        (.fail "unused") "T").1.body.get "error" = some (.str "Riot API error")) ∧
    ((summonerHandler reqSample (some "key") (.resp 401 none "Unauthorized")
        (.fail "unused") "T").1.body.get "error" ≠ some (.str "API authentication failed")) := by
  have he : (summonerHandler reqSample (some "key") (.resp 401 none "Unauthorized")
      (.fail "unused") "T").1.body.get "error" = some (.str "Riot API error") := rfl
  refine ⟨he, ?_⟩
  rw [he]
  intro h
  simp only [Option.some.injEq, JVal.str.injEq] at h
  exact absurd h (by decide)

/-- C3 (amended): on the identity-by-name upstream call, HTTP 403 is
classified as the auth failure and surfaced as the 'API authentication
failed' envelope with success:false; HTTP 401 is not special-cased and is
surfaced through the generic 'Riot API error' passthrough instead. -/
theorem C3_authClassification (req : IdReq) (key rawG rawT : String) (rest : List String)
    (g t ep : String) (body : Option AccountData) (text : String)
    (sResp : FetchResult SummonerData) (now : String)
    (hm : req.method = "GET") (hp : req.params = some (rawG :: rawT :: rest))
    (hg : decodeURIComponentM rawG = some g) (ht : decodeURIComponentM rawT = some t)
    (hk : key ≠ "")
    (hr : regionEndpoints.lookup (jsOr req.region "asia") = some ep) :
    (summonerHandler req (some key) (.resp 403 body text) sResp now).1 = ⟨403, authFailedBody⟩ ∧
    (summonerHandler req (some key) (.resp 401 body text) sResp now).1 =
      ⟨401, riotErrorBody 401 text⟩ ∧
    authFailedBody.get "error" = some (.str "API authentication failed") ∧
    authFailedBody.get "success" = some (.bool false) := by
  have hkey : jsTruthy (some key) = some key := by simp [jsTruthy, hk]
  refine ⟨?_, ?_, rfl, rfl⟩ <;>
    simp [summonerHandler, summonerCore, hm, hp, hg, ht, hkey, hr, httpOk]

/-- C3 witness: the amended theorem applied at a concrete request and 403
response. -/
theorem C3_authClassification_witness :
    (summonerHandler reqSample (some "key") (.resp 403 none "Forbidden")
        (.fail "unused") "T").1 = ⟨403, authFailedBody⟩ :=
  (C3_authClassification reqSample "key" "Hide%20on%20bush" "KR1" [] "Hide on bush" "KR1"
    "asia.api.riotgames.com" none "Forbidden" (.fail "unused") "T"
    rfl rfl rfl rfl (by decide) rfl).1

/-- C4 counterexample: after a successful identity resolution, a summoner
lookup that throws — either its `fetch` rejects (transport failure) or it
answers 2xx with an unparseable body (`.json()` throws) — does NOT yield
success:true: both are non-record outcomes of the Summoner Lookup Stage,
and in both the exception escapes to the catch-all and the flow returns
the 500 internal error envelope. -/
theorem C4_counterexample :
    ((summonerHandler reqSample (some "key") (.resp 200 (some accSample) "")
        (.fail "fetch failed") "T").1.body.get "success" ≠ some (.bool true)) ∧
    (summonerHandler reqSample (some "key") (.resp 200 (some accSample) "")
        (.fail "fetch failed") "T").1 = ⟨500, internalErrorBody "fetch failed"⟩ ∧
    ((summonerHandler reqSample (some "key") (.resp 200 (some accSample) "")
        (.resp 200 none "not json") "T").1.body.get "success" ≠ some (.bool true)) ∧
    (summonerHandler reqSample (some "key") (.resp 200 (some accSample) "")
        (.resp 200 none "not json") "T").1 =
      ⟨500, internalErrorBody "Unexpected token in JSON"⟩ := by
  have he : (summonerHandler reqSample (some "key") (.resp 200 (some accSample) "")
      (.fail "fetch failed") "T").1 = ⟨500, internalErrorBody "fetch failed"⟩ := rfl
  have he2 : (summonerHandler reqSample (some "key") (.resp 200 (some accSample) "")
      (.resp 200 none "not json") "T").1 =
      ⟨500, internalErrorBody "Unexpected token in JSON"⟩ := rfl
  refine ⟨?_, he, ?_, he2⟩
  · rw [he]
    have hs : (HttpReply.mk 500 (internalErrorBody "fetch failed")).body.get "success"
        = some (.bool false) := rfl
    rw [hs]
    simp
  · rw [he2]
    have hs : (HttpReply.mk 500
        (internalErrorBody "Unexpected token in JSON")).body.get "success"
        = some (.bool false) := rfl
    rw [hs]
    simp

/-- C4 (amended): after a successful identity resolution, if the summoner
lookup stage returns `Absent` because the server key is unrecognized, or
any HTTP response that is not 2xx (404 included), the flow still returns
success:true with exactly the identity fields (puuid, gameName, tagLine)
and no summoner fields; but a thrown exception during the summoner call
(network or JSON-parse failure) escapes to the catch-all and yields the
500 internal error envelope instead. -/
theorem C4_softFail (req : IdReq) (key rawG rawT : String) (rest : List String)
    (g t ep : String) (acc : AccountData) (st : Nat) (atext : String)
    (sResp : FetchResult SummonerData) (now : String)
    (hm : req.method = "GET") (hp : req.params = some (rawG :: rawT :: rest))
    (hg : decodeURIComponentM rawG = some g) (ht : decodeURIComponentM rawT = some t)
    (hk : key ≠ "")
    (hr : regionEndpoints.lookup (jsOr req.region "asia") = some ep)
    (hok : httpOk st = true) :
    ((serverEndpoints.lookup (jsOr req.server "kr") = none ∨
        (∃ s2 b2 t2, sResp = .resp s2 b2 t2 ∧ httpOk s2 = false)) →
      (summonerHandler req (some key) (.resp st (some acc) atext) sResp now).1 =
        ⟨200, identitySuccessBody acc none (jsOr req.region "asia") (jsOr req.server "kr") now⟩) ∧
    (∀ msg sep, sResp = .fail msg →
      serverEndpoints.lookup (jsOr req.server "kr") = some sep →
      (summonerHandler req (some key) (.resp st (some acc) atext) sResp now).1 =
        ⟨500, internalErrorBody msg⟩) ∧
    (∀ s2 t2 sep, sResp = .resp s2 none t2 → httpOk s2 = true →
      serverEndpoints.lookup (jsOr req.server "kr") = some sep →
      (summonerHandler req (some key) (.resp st (some acc) atext) sResp now).1 =
        ⟨500, internalErrorBody "Unexpected token in JSON"⟩) ∧
    (∀ acc2 r s n, (identitySuccessBody acc2 none r s n).get "success" = some (.bool true)) ∧
    (∀ acc2 r s n, (identitySuccessBody acc2 none r s n).get "data" =
      some (.obj [("puuid", .str acc2.puuid), ("gameName", .str acc2.gameName),
                  ("tagLine", .str acc2.tagLine)])) := by
  have hkey : jsTruthy (some key) = some key := by simp [jsTruthy, hk]
  refine ⟨?_, ?_, ?_, fun _ _ _ _ => rfl, fun _ _ _ _ => rfl⟩
  · rintro (hserv | ⟨s2, b2, t2, hresp, hs2⟩)
    · simp [summonerHandler, summonerCore, hm, hp, hg, ht, hkey, hr, hok, hserv]
    · subst hresp
      rcases hlook : serverEndpoints.lookup (jsOr req.server "kr") with _ | sep
      · simp [summonerHandler, summonerCore, hm, hp, hg, ht, hkey, hr, hok, hlook]
      · simp [summonerHandler, summonerCore, hm, hp, hg, ht, hkey, hr, hok, hlook, hs2]
  · intro msg sep hfail hlook
    subst hfail
    simp [summonerHandler, summonerCore, hm, hp, hg, ht, hkey, hr, hok, hlook]
  · intro s2 t2 sep hresp hs2 hlook
    subst hresp
    simp [summonerHandler, summonerCore, hm, hp, hg, ht, hkey, hr, hok, hlook, hs2]

/-- C4 witness: the amended theorem applied at a concrete request whose
summoner lookup answers 404. -/
theorem C4_softFail_witness :
    (summonerHandler reqSample (some "key") (.resp 200 (some accSample) "")
        (.resp 404 none "not found") "T").1 =
      ⟨200, identitySuccessBody accSample none "asia" "kr" "T"⟩ :=
  (C4_softFail reqSample "key" "Hide%20on%20bush" "KR1" [] "Hide on bush" "KR1"
    "asia.api.riotgames.com" accSample 200 "" (.resp 404 none "not found") "T"
    rfl rfl rfl rfl (by decide) rfl rfl).1
    (Or.inr ⟨404, none, "not found", rfl, rfl⟩)

/-! ## Facts about the Rank Flow -/

/-- C5: for every outcome of the by-puuid summoner lookup other than a 2xx
response with a parseable body — a thrown fetch, a 404, any other non-2xx
status, or an unparseable body — the Rank Flow replies success:false and
the league-entries (Rank Aggregation) call is never issued.  (When the
flow rejects the request before the summoner lookup the same conclusion
holds trivially: no league call is ever issued without a summoner record.) -/
theorem C5_hardFail (req : RankReq) (apiKey : Option String)
    (sResp : FetchResult SummonerData) (rResp : FetchResult (List RankEntryRaw))
    (now : String)
    (hm : req.method = "GET")
    (hfail : ∀ s b t, sResp = .resp s b t → ¬(httpOk s = true ∧ b.isSome = true)) :
    ((rankHandler req apiKey sResp rResp now).1.body.get "success" = some (.bool false)) ∧
    (∀ h sid, UpCall.league h sid ∉ (rankHandler req apiKey sResp rResp now).2) := by
  rcases hpu : jsTruthy req.puuid with _ | puuid
  · have hrep : rankHandler req apiKey sResp rResp now = (⟨400, puuidRequiredBody⟩, []) := by
      simp [rankHandler, rankCore, hm, hpu]
    rw [hrep]; exact ⟨rfl, by simp⟩
  · rcases hk : jsTruthy apiKey with _ | k
    · have hrep : rankHandler req apiKey sResp rResp now = (⟨500, apiKeyMissingBody⟩, []) := by
        simp [rankHandler, rankCore, hm, hpu, hk]
      rw [hrep]; exact ⟨rfl, by simp⟩
    · rcases hlook : serverEndpoints.lookup (jsOr req.server "kr") with _ | ep
      · have hrep : rankHandler req apiKey sResp rResp now = (⟨400, invalidServerBody⟩, []) := by
          simp [rankHandler, rankCore, hm, hpu, hk, hlook]
        rw [hrep]; exact ⟨rfl, by simp⟩
      · rcases sResp with msg | ⟨s, b, t⟩
        · have hrep : rankHandler req apiKey (.fail msg) rResp now =
              (⟨500, internalErrorBody msg⟩, [UpCall.summoner ep puuid]) := by
            simp [rankHandler, rankCore, hm, hpu, hk, hlook]
          rw [hrep]; exact ⟨rfl, by simp⟩
        · have hnb := hfail s b t rfl
          by_cases hs : httpOk s = true
          · have hb : b = none := by
              cases b with
              | none => rfl
              | some x => exact absurd ⟨hs, rfl⟩ hnb
            subst hb
            have hrep : rankHandler req apiKey (.resp s none t) rResp now =
                (⟨500, internalErrorBody "Unexpected token in JSON"⟩,
                  [UpCall.summoner ep puuid]) := by
              simp [rankHandler, rankCore, hm, hpu, hk, hlook, hs]
            rw [hrep]; exact ⟨rfl, by simp⟩
          · by_cases h404 : s = 404
            · subst h404
              have hrep : rankHandler req apiKey (.resp 404 b t) rResp now =
                  (⟨404, summonerNotFoundBody (jsOr req.server "kr")⟩,
                    [UpCall.summoner ep puuid]) := by
                simp [rankHandler, rankCore, hm, hpu, hk, hlook, httpOk]
              rw [hrep]; exact ⟨rfl, by simp⟩
            · have hrep : rankHandler req apiKey (.resp s b t) rResp now =
                  (⟨s, failedSummonerBody s⟩, [UpCall.summoner ep puuid]) := by
                simp [rankHandler, rankCore, hm, hpu, hk, hlook, hs, h404]
              rw [hrep]; exact ⟨rfl, by simp⟩

/-- C5 witness: the theorem applied at a concrete request whose summoner
lookup answers 404. -/
theorem C5_hardFail_witness :
    ((rankHandler ⟨"GET", some "sample-puuid", none⟩ (some "key") (.resp 404 none "nf")
        (.fail "unused") "T").1.body.get "success" = some (.bool false)) ∧
    (∀ h sid, UpCall.league h sid ∉
      (rankHandler ⟨"GET", some "sample-puuid", none⟩ (some "key") (.resp 404 none "nf")
        (.fail "unused") "T").2) :=
  C5_hardFail ⟨"GET", some "sample-puuid", none⟩ (some "key") (.resp 404 none "nf")
    (.fail "unused") "T" rfl
    (by intro s b t h; cases h; simp [httpOk])

/-- C6: a missing credential, a missing required input, or an unrecognized
region key (Identity Flow) / server key (Rank Flow) is reported with a
structured success:false envelope and an empty upstream-call trace (the
error is detected before any upstream HTTP call), and the valid-key lists
reported on an unrecognized key are exactly the enumerated tables. -/
theorem C6_preflightErrors :
    (∀ req apiKey aResp sResp now, req.method = "GET" →
      (req.params = none ∨ req.params = some [] ∨ ∃ a, req.params = some [a]) →
      summonerHandler req apiKey aResp sResp now = (⟨400, invalidFormatBody⟩, [])) ∧
    (∀ req apiKey aResp sResp now rawG rawT rest g t, req.method = "GET" →
      req.params = some (rawG :: rawT :: rest) →
      decodeURIComponentM rawG = some g → decodeURIComponentM rawT = some t →
      jsTruthy apiKey = none →
      summonerHandler req apiKey aResp sResp now = (⟨500, configErrorBody⟩, [])) ∧
    (∀ req apiKey aResp sResp now rawG rawT rest g t key, req.method = "GET" →
      req.params = some (rawG :: rawT :: rest) →
      decodeURIComponentM rawG = some g → decodeURIComponentM rawT = some t →
      jsTruthy apiKey = some key →
      regionEndpoints.lookup (jsOr req.region "asia") = none →
      summonerHandler req apiKey aResp sResp now = (⟨400, invalidRegionBody⟩, [])) ∧
    (invalidRegionBody.get "validRegions" =
      some (.arr [.str "americas", .str "asia", .str "europe", .str "sea"])) ∧
    (invalidRegionBody.get "success" = some (.bool false)) ∧
    (∀ req apiKey sResp rResp now, req.method = "GET" → jsTruthy req.puuid = none →
      rankHandler req apiKey sResp rResp now = (⟨400, puuidRequiredBody⟩, [])) ∧
    (∀ req apiKey sResp rResp now puuid, req.method = "GET" →
      jsTruthy req.puuid = some puuid → jsTruthy apiKey = none →
      rankHandler req apiKey sResp rResp now = (⟨500, apiKeyMissingBody⟩, [])) ∧
    (∀ req apiKey sResp rResp now puuid key, req.method = "GET" →
      jsTruthy req.puuid = some puuid → jsTruthy apiKey = some key →
      serverEndpoints.lookup (jsOr req.server "kr") = none →
      rankHandler req apiKey sResp rResp now = (⟨400, invalidServerBody⟩, [])) ∧
    (invalidServerBody.get "validServers" =
      some (.arr [.str "kr", .str "jp1", .str "na1", .str "br1", .str "lan", .str "las",
                  .str "oc1", .str "euw1", .str "eun1", .str "tr1", .str "ru"])) ∧
    (invalidServerBody.get "success" = some (.bool false)) := by
  refine ⟨?_, ?_, ?_, rfl, rfl, ?_, ?_, ?_, rfl, rfl⟩
  · intro req apiKey aResp sResp now hm hp
    rcases hp with h | h | ⟨a, h⟩ <;> simp [summonerHandler, summonerCore, hm, h]
  · intro req apiKey aResp sResp now rawG rawT rest g t hm hp hg ht hk
    simp [summonerHandler, summonerCore, hm, hp, hg, ht, hk]
  · intro req apiKey aResp sResp now rawG rawT rest g t key hm hp hg ht hk hr
    simp [summonerHandler, summonerCore, hm, hp, hg, ht, hk, hr]
  · intro req apiKey sResp rResp now hm hpu
    simp [rankHandler, rankCore, hm, hpu]
  · intro req apiKey sResp rResp now puuid hm hpu hk
    simp [rankHandler, rankCore, hm, hpu, hk]
  · intro req apiKey sResp rResp now puuid key hm hpu hk hlook
    simp [rankHandler, rankCore, hm, hpu, hk, hlook]

/-- C6 witness: the invalid-region conjunct applied at a concrete request
with the unrecognized region key "mars". -/
theorem C6_preflightErrors_witness :
    summonerHandler ⟨"GET", some ["A", "B"], some "mars", none⟩ (some "key")
      (.fail "unused") (.fail "unused") "T" = (⟨400, invalidRegionBody⟩, []) :=
  C6_preflightErrors.2.2.1 ⟨"GET", some ["A", "B"], some "mars", none⟩ (some "key")
    (.fail "unused") (.fail "unused") "T" "A" "B" [] "A" "B" "key" rfl rfl rfl rfl rfl rfl

/-- C7: when the identity-by-name call answers 404, the flow replies 404
with the exact not-found envelope — success:false, error "Summoner not
found", the three caller-facing suggestions, and no summoner fields — and
the trace shows the account call was the only upstream call issued. -/
theorem C7_identityNotFound (req : IdReq) (key rawG rawT : String) (rest : List String)
    (g t ep : String) (body : Option AccountData) (text : String)
    (sResp : FetchResult SummonerData) (now : String)
    (hm : req.method = "GET") (hp : req.params = some (rawG :: rawT :: rest))
    (hg : decodeURIComponentM rawG = some g) (ht : decodeURIComponentM rawT = some t)
    (hk : key ≠ "")
    (hr : regionEndpoints.lookup (jsOr req.region "asia") = some ep) :
    summonerHandler req (some key) (.resp 404 body text) sResp now =
      (⟨404, notFoundBody g t⟩, [UpCall.account ep g t]) ∧
    (notFoundBody g t).get "success" = some (.bool false) ∧
    (notFoundBody g t).get "error" = some (.str "Summoner not found") ∧
    (notFoundBody g t).get "suggestions" = some (.arr
      [.str "Check the spelling of the game name",
       .str "Verify the tag line (e.g., KR1, NA1, EUW1)",
       .str "Make sure the account exists in the specified region"]) := by
  have hkey : jsTruthy (some key) = some key := by simp [jsTruthy, hk]
  refine ⟨?_, rfl, rfl, rfl⟩
  simp [summonerHandler, summonerCore, hm, hp, hg, ht, hkey, hr, httpOk]

/-- C7 witness: the theorem applied at the concrete sample request with a
404 account response. -/
theorem C7_identityNotFound_witness :
    summonerHandler reqSample (some "key") (.resp 404 none "nf") (.fail "unused") "T" =
      (⟨404, notFoundBody "Hide on bush" "KR1"⟩,
       [UpCall.account "asia.api.riotgames.com" "Hide on bush" "KR1"]) :=
  (C7_identityNotFound reqSample "key" "Hide%20on%20bush" "KR1" [] "Hide on bush" "KR1"
    "asia.api.riotgames.com" none "nf" (.fail "unused") "T"
    rfl rfl rfl rfl (by decide) rfl).1

/-- Erase the "timestamp" field inside the "metadata" object of a reply
body (the only generation-dependent field of any payload). -/
def dropTimestamp (v : JVal) : JVal :=
  match v with
  | .obj fs => .obj (fs.map (fun p =>
      if p.1 = "metadata" then
        (p.1, match p.2 with
              | .obj ms => JVal.obj (ms.filter (fun m => m.1 ≠ "timestamp"))
              | w => w)
      else p))
  | w => w

/-- C8: the Identity Flow is deterministic in its request and upstream
responses: two runs differing only in the generation timestamp produce the
same status, the same upstream-call trace, and structurally identical
bodies once the metadata timestamp field is erased. -/
theorem C8_deterministic (req : IdReq) (apiKey : Option String)
    (aResp : FetchResult AccountData) (sResp : FetchResult SummonerData) (t1 t2 : String) :
    (summonerHandler req apiKey aResp sResp t1).1.status =
      (summonerHandler req apiKey aResp sResp t2).1.status ∧
    dropTimestamp (summonerHandler req apiKey aResp sResp t1).1.body =
      dropTimestamp (summonerHandler req apiKey aResp sResp t2).1.body ∧
    (summonerHandler req apiKey aResp sResp t1).2 =
      (summonerHandler req apiKey aResp sResp t2).2 := by
  by_cases hO : req.method = "OPTIONS"
  · simp [summonerHandler, hO]
  by_cases hG : req.method = "GET"
  swap
  · simp [summonerHandler, hO, hG]
  rcases hp : req.params with _ | l
  · simp [summonerHandler, summonerCore, hO, hG, hp]
  rcases l with _ | ⟨a, l2⟩
  · simp [summonerHandler, summonerCore, hO, hG, hp]
  rcases l2 with _ | ⟨b, r⟩
  · simp [summonerHandler, summonerCore, hO, hG, hp]
  rcases hg : decodeURIComponentM a with _ | g
  · simp [summonerHandler, summonerCore, hO, hG, hp, hg]
  rcases ht : decodeURIComponentM b with _ | t
  · simp [summonerHandler, summonerCore, hO, hG, hp, hg, ht]
  rcases hk : jsTruthy apiKey with _ | k
  · simp [summonerHandler, summonerCore, hO, hG, hp, hg, ht, hk]
  rcases hr : regionEndpoints.lookup (jsOr req.region "asia") with _ | ep
  · simp [summonerHandler, summonerCore, hO, hG, hp, hg, ht, hk, hr]
  rcases aResp with msg | ⟨s, bd, tx⟩
  · simp [summonerHandler, summonerCore, hO, hG, hp, hg, ht, hk, hr]
  by_cases hs : httpOk s = true
  swap
  · simp [summonerHandler, summonerCore, hO, hG, hp, hg, ht, hk, hr, hs]
  rcases bd with _ | acc
  · simp [summonerHandler, summonerCore, hO, hG, hp, hg, ht, hk, hr, hs]
  rcases hlook : serverEndpoints.lookup (jsOr req.server "kr") with _ | sep
  · refine ⟨?_, ?_, ?_⟩ <;>
      simp [summonerHandler, summonerCore, hO, hG, hp, hg, ht, hk, hr, hs, hlook,
            dropTimestamp, identitySuccessBody]
  rcases sResp with msg2 | ⟨s2, bd2, tx2⟩
  · simp [summonerHandler, summonerCore, hO, hG, hp, hg, ht, hk, hr, hs, hlook]
  by_cases hs2 : httpOk s2 = true
  swap
  · refine ⟨?_, ?_, ?_⟩ <;>
      simp [summonerHandler, summonerCore, hO, hG, hp, hg, ht, hk, hr, hs, hlook, hs2,
            dropTimestamp, identitySuccessBody]
  rcases bd2 with _ | sm
  · simp [summonerHandler, summonerCore, hO, hG, hp, hg, ht, hk, hr, hs, hlook, hs2]
  refine ⟨?_, ?_, ?_⟩ <;>
    simp [summonerHandler, summonerCore, hO, hG, hp, hg, ht, hk, hr, hs, hlook, hs2,
          dropTimestamp, identitySuccessBody]

/-- The C9 envelope invariant for one reply: the HTTP status is 200 exactly
when the body says success:true, and every non-200 body says success:false
with a non-empty error string. -/
def coherent (rep : HttpReply) : Prop :=
  (rep.status = 200 ↔ rep.body.get "success" = some (.bool true)) ∧
  (rep.status ≠ 200 → rep.body.get "success" = some (.bool false) ∧
    ∃ e, rep.body.get "error" = some (.str e) ∧ e ≠ "")

/-- A non-200 failure envelope with success:false and a non-empty error is
coherent. -/
theorem coherent_err (st : Nat) (body : JVal) (e : String)
    (hst : st ≠ 200) (hsucc : body.get "success" = some (.bool false))
    (herr : body.get "error" = some (.str e)) (he : e ≠ "") :
    coherent ⟨st, body⟩ := by
  constructor
  · apply iff_of_false hst
    rw [hsucc]
    simp
  · intro _
    exact ⟨hsucc, e, herr, he⟩

/-- A 200 envelope with success:true is coherent. -/
theorem coherent_ok (body : JVal) (hsucc : body.get "success" = some (.bool true)) :
    coherent ⟨200, body⟩ :=
  ⟨iff_of_true rfl hsucc, fun h => absurd rfl h⟩

/-- C9: for every GET request to either flow, the emitted status is 200
exactly when the body has success:true, and every non-200 body carries
success:false together with a non-empty error string. -/
theorem C9_statusSuccess (now : String) :
    (∀ (req : IdReq) (apiKey : Option String) (aResp : FetchResult AccountData)
        (sResp : FetchResult SummonerData), req.method = "GET" →
      coherent (summonerHandler req apiKey aResp sResp now).1) ∧
    (∀ (req : RankReq) (apiKey : Option String) (sResp : FetchResult SummonerData)
        (rResp : FetchResult (List RankEntryRaw)), req.method = "GET" →
      coherent (rankHandler req apiKey sResp rResp now).1) := by
  constructor
  · intro req apiKey aResp sResp hm
    rcases hp : req.params with _ | l
    on_goal 1 =>
      have hrep : summonerHandler req apiKey aResp sResp now = (⟨400, invalidFormatBody⟩, []) := by
        simp [summonerHandler, summonerCore, hm, hp]
      rw [hrep]
      exact coherent_err _ _ _ (by decide) rfl rfl (by decide)
    rcases l with _ | ⟨a, l2⟩
    on_goal 1 =>
      have hrep : summonerHandler req apiKey aResp sResp now = (⟨400, invalidFormatBody⟩, []) := by
        simp [summonerHandler, summonerCore, hm, hp]
      rw [hrep]
      exact coherent_err _ _ _ (by decide) rfl rfl (by decide)
    rcases l2 with _ | ⟨b, r⟩
    on_goal 1 =>
      have hrep : summonerHandler req apiKey aResp sResp now = (⟨400, invalidFormatBody⟩, []) := by
        simp [summonerHandler, summonerCore, hm, hp]
      rw [hrep]
      exact coherent_err _ _ _ (by decide) rfl rfl (by decide)
    rcases hg : decodeURIComponentM a with _ | g
    on_goal 1 =>
      have hrep : summonerHandler req apiKey aResp sResp now =
          (⟨500, internalErrorBody "URI malformed"⟩, []) := by
        simp [summonerHandler, summonerCore, hm, hp, hg]
      rw [hrep]
      exact coherent_err _ _ _ (by decide) rfl rfl (by decide)
    rcases ht : decodeURIComponentM b with _ | t
    on_goal 1 =>
      have hrep : summonerHandler req apiKey aResp sResp now =
          (⟨500, internalErrorBody "URI malformed"⟩, []) := by
        simp [summonerHandler, summonerCore, hm, hp, hg, ht]
      rw [hrep]
      exact coherent_err _ _ _ (by decide) rfl rfl (by decide)
    rcases hk : jsTruthy apiKey with _ | k
    on_goal 1 =>
      have hrep : summonerHandler req apiKey aResp sResp now = (⟨500, configErrorBody⟩, []) := by
        simp [summonerHandler, summonerCore, hm, hp, hg, ht, hk]
      rw [hrep]
      exact coherent_err _ _ _ (by decide) rfl rfl (by decide)
    rcases hr : regionEndpoints.lookup (jsOr req.region "asia") with _ | ep
    on_goal 1 =>
      have hrep : summonerHandler req apiKey aResp sResp now = (⟨400, invalidRegionBody⟩, []) := by
        simp [summonerHandler, summonerCore, hm, hp, hg, ht, hk, hr]
      rw [hrep]
      exact coherent_err _ _ _ (by decide) rfl rfl (by decide)
    rcases aResp with msg | ⟨s, bd, tx⟩
    on_goal 1 =>
      have hrep : summonerHandler req apiKey (.fail msg) sResp now =
          (⟨500, internalErrorBody msg⟩, [UpCall.account ep g t]) := by
        simp [summonerHandler, summonerCore, hm, hp, hg, ht, hk, hr]
      rw [hrep]
      exact coherent_err _ _ _ (by decide) rfl rfl (by decide)
    by_cases hs : httpOk s = true
    swap
    on_goal 1 =>
      have hs200 : s ≠ 200 := by simp [httpOk] at hs; omega
      by_cases h404 : s = 404
      · subst h404
        have hrep : summonerHandler req apiKey (.resp 404 bd tx) sResp now =
            (⟨404, notFoundBody g t⟩, [UpCall.account ep g t]) := by
          simp [summonerHandler, summonerCore, hm, hp, hg, ht, hk, hr, httpOk]
        rw [hrep]
        exact coherent_err _ _ _ (by decide) rfl rfl (by decide)
      · by_cases h403 : s = 403
        · subst h403
          have hrep : summonerHandler req apiKey (.resp 403 bd tx) sResp now =
              (⟨403, authFailedBody⟩, [UpCall.account ep g t]) := by
            simp [summonerHandler, summonerCore, hm, hp, hg, ht, hk, hr, httpOk]
          rw [hrep]
          exact coherent_err _ _ _ (by decide) rfl rfl (by decide)
        · have hrep : summonerHandler req apiKey (.resp s bd tx) sResp now =
              (⟨s, riotErrorBody s tx⟩, [UpCall.account ep g t]) := by
            simp [summonerHandler, summonerCore, hm, hp, hg, ht, hk, hr, hs, h404, h403]
          rw [hrep]
          exact coherent_err _ _ _ hs200 rfl rfl (by decide)
    rcases bd with _ | acc
    on_goal 1 =>
      have hrep : summonerHandler req apiKey (.resp s none tx) sResp now =
          (⟨500, internalErrorBody "Unexpected token in JSON"⟩, [UpCall.account ep g t]) := by
        simp [summonerHandler, summonerCore, hm, hp, hg, ht, hk, hr, hs]
      rw [hrep]
      exact coherent_err _ _ _ (by decide) rfl rfl (by decide)
    rcases hlook : serverEndpoints.lookup (jsOr req.server "kr") with _ | sep
    on_goal 1 =>
      have hrep : summonerHandler req apiKey (.resp s (some acc) tx) sResp now =
          (⟨200, identitySuccessBody acc none (jsOr req.region "asia") (jsOr req.server "kr") now⟩,
           [UpCall.account ep g t]) := by
        simp [summonerHandler, summonerCore, hm, hp, hg, ht, hk, hr, hs, hlook]
      rw [hrep]
      exact coherent_ok _ rfl
    rcases sResp with msg2 | ⟨s2, bd2, tx2⟩
    on_goal 1 =>
      have hrep : summonerHandler req apiKey (.resp s (some acc) tx) (.fail msg2) now =
          (⟨500, internalErrorBody msg2⟩,
           [UpCall.account ep g t, UpCall.summoner sep acc.puuid]) := by
        simp [summonerHandler, summonerCore, hm, hp, hg, ht, hk, hr, hs, hlook]
      rw [hrep]
      exact coherent_err _ _ _ (by decide) rfl rfl (by decide)
    by_cases hs2 : httpOk s2 = true
    swap
    on_goal 1 =>
      have hrep : summonerHandler req apiKey (.resp s (some acc) tx) (.resp s2 bd2 tx2) now =
          (⟨200, identitySuccessBody acc none (jsOr req.region "asia") (jsOr req.server "kr") now⟩,
           [UpCall.account ep g t, UpCall.summoner sep acc.puuid]) := by
        simp [summonerHandler, summonerCore, hm, hp, hg, ht, hk, hr, hs, hlook, hs2]
      rw [hrep]
      exact coherent_ok _ rfl
    rcases bd2 with _ | sm
    on_goal 1 =>
      have hrep : summonerHandler req apiKey (.resp s (some acc) tx) (.resp s2 none tx2) now =
          (⟨500, internalErrorBody "Unexpected token in JSON"⟩,
           [UpCall.account ep g t, UpCall.summoner sep acc.puuid]) := by
        simp [summonerHandler, summonerCore, hm, hp, hg, ht, hk, hr, hs, hlook, hs2]
      rw [hrep]
      exact coherent_err _ _ _ (by decide) rfl rfl (by decide)
    have hrep : summonerHandler req apiKey (.resp s (some acc) tx) (.resp s2 (some sm) tx2) now =
        (⟨200, identitySuccessBody acc (some sm) (jsOr req.region "asia") (jsOr req.server "kr") now⟩,
         [UpCall.account ep g t, UpCall.summoner sep acc.puuid]) := by
      simp [summonerHandler, summonerCore, hm, hp, hg, ht, hk, hr, hs, hlook, hs2]
    rw [hrep]
    exact coherent_ok _ rfl
  · intro req apiKey sResp rResp hm
    rcases hpu : jsTruthy req.puuid with _ | puuid
    on_goal 1 =>
      have hrep : rankHandler req apiKey sResp rResp now = (⟨400, puuidRequiredBody⟩, []) := by
        simp [rankHandler, rankCore, hm, hpu]
      rw [hrep]
      exact coherent_err _ _ _ (by decide) rfl rfl (by decide)
    rcases hk : jsTruthy apiKey with _ | k
    on_goal 1 =>
      have hrep : rankHandler req apiKey sResp rResp now = (⟨500, apiKeyMissingBody⟩, []) := by
        simp [rankHandler, rankCore, hm, hpu, hk]
      rw [hrep]
      exact coherent_err _ _ _ (by decide) rfl rfl (by decide)
    rcases hlook : serverEndpoints.lookup (jsOr req.server "kr") with _ | ep
    on_goal 1 =>
      have hrep : rankHandler req apiKey sResp rResp now = (⟨400, invalidServerBody⟩, []) := by
        simp [rankHandler, rankCore, hm, hpu, hk, hlook]
      rw [hrep]
      exact coherent_err _ _ _ (by decide) rfl rfl (by decide)
    rcases sResp with msg | ⟨s, bd, tx⟩
    on_goal 1 =>
      have hrep : rankHandler req apiKey (.fail msg) rResp now =
          (⟨500, internalErrorBody msg⟩, [UpCall.summoner ep puuid]) := by
        simp [rankHandler, rankCore, hm, hpu, hk, hlook]
      rw [hrep]
      exact coherent_err _ _ _ (by decide) rfl rfl (by decide)
    by_cases hs : httpOk s = true
    swap
    on_goal 1 =>
      have hs200 : s ≠ 200 := by simp [httpOk] at hs; omega
      by_cases h404 : s = 404
      · subst h404
        have hrep : rankHandler req apiKey (.resp 404 bd tx) rResp now =
            (⟨404, summonerNotFoundBody (jsOr req.server "kr")⟩, [UpCall.summoner ep puuid]) := by
          simp [rankHandler, rankCore, hm, hpu, hk, hlook, httpOk]
        rw [hrep]
        exact coherent_err _ _ _ (by decide) rfl rfl (by decide)
      · have hrep : rankHandler req apiKey (.resp s bd tx) rResp now =
            (⟨s, failedSummonerBody s⟩, [UpCall.summoner ep puuid]) := by
          simp [rankHandler, rankCore, hm, hpu, hk, hlook, hs, h404]
        rw [hrep]
        exact coherent_err _ _ _ hs200 rfl rfl (by decide)
    rcases bd with _ | sd
    on_goal 1 =>
      have hrep : rankHandler req apiKey (.resp s none tx) rResp now =
          (⟨500, internalErrorBody "Unexpected token in JSON"⟩, [UpCall.summoner ep puuid]) := by
        simp [rankHandler, rankCore, hm, hpu, hk, hlook, hs]
      rw [hrep]
      exact coherent_err _ _ _ (by decide) rfl rfl (by decide)
    rcases rResp with msg2 | ⟨s2, bd2, tx2⟩
    on_goal 1 =>
      have hrep : rankHandler req apiKey (.resp s (some sd) tx) (.fail msg2) now =
          (⟨500, internalErrorBody msg2⟩,
           [UpCall.summoner ep puuid, UpCall.league ep sd.id]) := by
        simp [rankHandler, rankCore, hm, hpu, hk, hlook, hs]
      rw [hrep]
      exact coherent_err _ _ _ (by decide) rfl rfl (by decide)
    by_cases hs2 : httpOk s2 = true
    swap
    on_goal 1 =>
      have hs2200 : s2 ≠ 200 := by simp [httpOk] at hs2; omega
      have hrep : rankHandler req apiKey (.resp s (some sd) tx) (.resp s2 bd2 tx2) now =
          (⟨s2, failedRankBody s2⟩,
           [UpCall.summoner ep puuid, UpCall.league ep sd.id]) := by
        simp [rankHandler, rankCore, hm, hpu, hk, hlook, hs, hs2]
      rw [hrep]
      exact coherent_err _ _ _ hs2200 rfl rfl (by decide)
    rcases bd2 with _ | rd
    on_goal 1 =>
      have hrep : rankHandler req apiKey (.resp s (some sd) tx) (.resp s2 none tx2) now =
          (⟨500, internalErrorBody "Unexpected token in JSON"⟩,
           [UpCall.summoner ep puuid, UpCall.league ep sd.id]) := by
        simp [rankHandler, rankCore, hm, hpu, hk, hlook, hs, hs2]
      rw [hrep]
      exact coherent_err _ _ _ (by decide) rfl rfl (by decide)
    have hrep : rankHandler req apiKey (.resp s (some sd) tx) (.resp s2 (some rd) tx2) now =
        (⟨200, rankSuccessBody puuid sd (rd.map processRank) (jsOr req.server "kr") now⟩,
         [UpCall.summoner ep puuid, UpCall.league ep sd.id]) := by
      simp [rankHandler, rankCore, hm, hpu, hk, hlook, hs, hs2]
    rw [hrep]
    exact coherent_ok _ rfl

/-- C9 witness: the invariant applied at one concrete GET request per flow. -/
theorem C9_statusSuccess_witness :
    coherent (summonerHandler reqSample (some "key") (.resp 404 none "x")
      (.fail "unused") "T").1 ∧
    coherent (rankHandler ⟨"GET", some "sample-puuid", none⟩ none
      (.fail "unused") (.fail "unused") "T").1 :=
  ⟨(C9_statusSuccess "T").1 reqSample (some "key") (.resp 404 none "x") (.fail "unused") rfl,
   (C9_statusSuccess "T").2 ⟨"GET", some "sample-puuid", none⟩ none
     (.fail "unused") (.fail "unused") rfl⟩

/-- C10: when a gameName or tagLine path segment contains a malformed
percent-escape, `decodeURIComponent` throws, the catch-all converts the
`URIError` into the generic 500 "Internal server error" envelope (not a
structured input-shape error), and no upstream call is issued.  A lone "%"
is such a malformed segment. -/
theorem C10_malformedEscape (req : IdReq) (apiKey : Option String)
    (aResp : FetchResult AccountData) (sResp : FetchResult SummonerData)
    (now : String) (rawG rawT : String) (rest : List String)
    (hm : req.method = "GET") (hp : req.params = some (rawG :: rawT :: rest))
    (hbad : decodeURIComponentM rawG = none ∨
      (∃ g, decodeURIComponentM rawG = some g ∧ decodeURIComponentM rawT = none)) :
    summonerHandler req apiKey aResp sResp now =
      (⟨500, internalErrorBody "URI malformed"⟩, []) ∧
    (internalErrorBody "URI malformed").get "success" = some (.bool false) ∧
    (internalErrorBody "URI malformed").get "error" = some (.str "Internal server error") ∧
    decodeURIComponentM "%" = none := by
  refine ⟨?_, rfl, rfl, rfl⟩
  rcases hbad with hg | ⟨g, hg, ht⟩
  · simp [summonerHandler, summonerCore, hm, hp, hg]
  · simp [summonerHandler, summonerCore, hm, hp, hg, ht]

/-- C10 witness: the theorem applied at the concrete request whose gameName
segment is a lone "%". -/
theorem C10_malformedEscape_witness :
    summonerHandler ⟨"GET", some ["%", "KR1"], none, none⟩ (some "key")
      (.fail "unused") (.fail "unused") "T" =
      (⟨500, internalErrorBody "URI malformed"⟩, []) :=
  (C10_malformedEscape ⟨"GET", some ["%", "KR1"], none, none⟩ (some "key")
    (.fail "unused") (.fail "unused") "T" "%" "KR1" [] rfl rfl (Or.inl rfl)).1
